import Mathlib

/-!
Verification development for the streamable-HTTP MCP transport
(`src/streamable-http.ts`) and its session manager durable object
(`session-manager.ts`).

The TypeScript is embedded shallowly:
* JavaScript runtime values are modelled by `JValue` (with a distinct
  `undefined`, since the validator compares against it).
* Property access `v.k` is total (`jsGetProp`) where the receiver is known
  to be truthy, and `jsGetPropE` (which can throw a TypeError, modelled as
  `Except.error`) where the receiver may be `null`/`undefined`.
* `try { … } catch { … }` blocks become `Except` computations whose error
  branch is the catch handler.
* The external collaborators (vector store, D1, session durable object)
  are opaque parameters (`ToolBackend`, lookup/registration outcomes):
  every theorem quantifies over their behaviour.
-/

namespace MCPMemory

/-- JavaScript runtime values as they occur in this transport.  `undefined`
is a first-class value because `isValidJsonRpc` compares `body.id` against
it.  Numbers are modelled as integers (no request field is fractional). -/
inductive JValue where
  | undefined : JValue
  | null : JValue
  | bool : Bool → JValue
  | num : Int → JValue
  | str : String → JValue
  | arr : List JValue → JValue
  | obj : List (String × JValue) → JValue

/-- JavaScript truthiness: `undefined`, `null`, `false`, `0` and `""` are
falsy, everything else (including every array and object) is truthy. -/
def truthy : JValue → Bool
  | .undefined => false
  | .null => false
  | .bool b => b
  | .num n => n != 0
  | .str s => s != ""
  | .arr _ => true
  | .obj _ => true

/-- Property access on a receiver that is known not to be `null` or
`undefined` (JavaScript boxes primitives, so `false.id` is `undefined`,
it does not throw).  Objects yield the first binding for the key,
everything else yields `undefined`. -/
def jsGetProp (v : JValue) (k : String) : JValue :=
  match v with
  | .obj fields =>
    match fields.find? (fun p => p.1 == k) with
    | some p => p.2
    | none => .undefined
  | _ => .undefined

/-- Property access where the receiver may be `null`/`undefined`: those two
receivers throw a TypeError, modelled as `Except.error`. -/
def jsGetPropE (v : JValue) (k : String) : Except String JValue :=
  match v with
  | .undefined => .error "TypeError"
  | .null => .error "TypeError"
  | _ => .ok (jsGetProp v k)

/-- JavaScript `x || null`: a truthy value passes through, any falsy value
(including `0`, `""` and `undefined`) becomes `null`. -/
def jsOrNull (v : JValue) : JValue :=
  if truthy v then v else .null

/-- `typeof v === "string"`. -/
def isString : JValue → Bool
  | .str _ => true
  | _ => false

/-- `typeof v === "number"`. -/
def isNumber : JValue → Bool
  | .num _ => true
  | _ => false

/-- `v === undefined`. -/
def isUndefined : JValue → Bool
  | .undefined => true
  | _ => false

/-- `v === null`. -/
def isNull : JValue → Bool
  | .null => true
  | _ => false

/-- Is the value a JavaScript object literal (a parsed JSON object)? -/
def isObj : JValue → Bool
  | .obj _ => true
  | _ => false

/-- JavaScript string coercion as used by the template literal
`` `Unknown tool: ${name}` `` and by `String(error)`. -/
def jsToString : JValue → String
  | .undefined => "undefined"
  | .null => "null"
  | .bool b => if b then "true" else "false"
  | .num n => toString n
  | .str s => s
  | .arr xs => String.intercalate "," (xs.attach.map (fun x => jsToString x.1))
  | .obj _ => "[object Object]"
decreasing_by
  rename_i xs
  have h := List.sizeOf_lt_of_mem x.2
  simp only [JValue.arr.sizeOf_spec]
  omega

/-- `String.prototype.includes` on the Accept header. -/
def jsIncludes (s sub : String) : Bool :=
  decide (sub.data <:+: s.data)

/-- `isValidJsonRpc` from `streamable-http.ts`:
`body && body.jsonrpc === "2.0" && typeof body.method === "string" &&
 (body.id === undefined || typeof body.id === "string" ||
  typeof body.id === "number" || body.id === null)`.
The property accesses sit to the right of `body &&`, so they only execute
on a truthy (hence non-`null`) receiver and can use total access. -/
def isValidJsonRpc (body : JValue) : Bool :=
  truthy body
  && (match jsGetProp body "jsonrpc" with
      | .str s => s == "2.0"
      | _ => false)
  && isString (jsGetProp body "method")
  && (let i := jsGetProp body "id"
      isUndefined i || isString i || isNumber i || isNull i)

/-- One content block of a Tool Result.  In this server the kind tag is
always the literal `"text"`. -/
structure ContentBlock where
  kind : String
  text : String

/-- `ToolResult` from `streamable-http.ts`: content blocks plus the
optional `isError` flag (`none` models an absent field). -/
structure ToolResult where
  content : List ContentBlock
  isError : Option Bool := none

/-- The `error` member of a JSON-RPC response. -/
structure JsonRpcError where
  code : Int
  message : String
  data : Option String := none

/-- One memory row returned by `searchMemories`.  The score is carried
already formatted (the source renders it with `score.toFixed(4)`, a
floating-point formatting step outside this model's scope). -/
structure Memory where
  content : String
  scoreText : String

/-- The static catalogue entry for one tool: name, description, and its
single required string parameter with that parameter's description. -/
structure ToolSpec where
  name : String
  description : String
  paramName : String
  paramDescription : String

/-- Server identity and protocol metadata returned by `initialize` (the
capability categories are the constant empty objects in the source). -/
structure InitializeResult where
  protocolVersion : String
  serverName : String
  serverVersion : String

/-- The possible `result` payloads of this dispatcher. -/
inductive RpcResult where
  | tool : ToolResult → RpcResult
  | toolList : List ToolSpec → RpcResult
  | initResult : InitializeResult → RpcResult

/-- A JSON-RPC response envelope (`jsonrpc` tag is the constant "2.0" and
is left implicit).  `id` is a `JValue` because the code echoes
`request.id || null`, which can be any JavaScript value. -/
structure JsonRpcResponse where
  result : Option RpcResult := none
  error : Option JsonRpcError := none
  id : JValue

/-- The external tool backend (`storeMemory`/`storeMemoryInD1` from the
vectorize and D1 utilities, `searchMemories`).  Each operation either
returns a value or throws (`Except.error` carries `String(error)`). -/
structure ToolBackend where
  storeMemory : JValue → Except String String
  storeMemoryInD1 : JValue → String → Except String Unit
  searchMemories : JValue → Except String (List Memory)

/-- `addToMCPMemory`: store in Vectorize then D1; any throw from either is
caught and rendered as a Tool Result with `isError = true`. -/
def addToMCPMemory (backend : ToolBackend) (thingToRemember : JValue) : ToolResult :=
  match (do
      let memoryId ← backend.storeMemory thingToRemember
      backend.storeMemoryInD1 thingToRemember memoryId : Except String Unit) with
  | .ok _ =>
    { content := [⟨"text", "Remembered: " ++ jsToString thingToRemember⟩] }
  | .error e =>
    { content := [⟨"text", "Failed to remember: " ++ e⟩], isError := some true }

/-- `searchMCPMemory`: run the similarity search; a throw is caught and
rendered with `isError = true`, an empty hit list yields the "No relevant
memories found." text. -/
def searchMCPMemory (backend : ToolBackend) (informationToGet : JValue) : ToolResult :=
  match backend.searchMemories informationToGet with
  | .ok memories =>
    if memories.length > 0 then
      { content := [⟨"text",
          "Found memories:\n" ++ String.intercalate "\n"
            (memories.map (fun m => m.content ++ " (score: " ++ m.scoreText ++ ")"))⟩] }
    else
      { content := [⟨"text", "No relevant memories found."⟩] }
  | .error e =>
    { content := [⟨"text", "Failed to search memories: " ++ e⟩], isError := some true }

/-- `handleToolCall`.  The destructuring
`const { name, arguments: args } = request.params` throws when `params` is
`null`/`undefined`; the argument reads `args.thingToRemember` /
`args.informationToGet` throw when `args` is `null`/`undefined`.  Those
throws escape to `processJsonRpcRequest`'s catch, hence the `Except`. -/
def handleToolCall (backend : ToolBackend) (request : JValue) :
    Except String JsonRpcResponse := do
  let params := jsGetProp request "params"
  if isUndefined params || isNull params then
    throw "TypeError: cannot destructure request.params"
  let name := jsGetProp params "name"
  let args := jsGetProp params "arguments"
  match name with
  | .str "addToMCPMemory" =>
    let thing ← jsGetPropE args "thingToRemember"
    pure { result := some (.tool (addToMCPMemory backend thing)),
           id := jsOrNull (jsGetProp request "id") }
  | .str "searchMCPMemory" =>
    let query ← jsGetPropE args "informationToGet"
    pure { result := some (.tool (searchMCPMemory backend query)),
           id := jsOrNull (jsGetProp request "id") }
  | _ =>
    pure { error := some ⟨-32601, "Unknown tool: " ++ jsToString name, none⟩,
           id := jsOrNull (jsGetProp request "id") }

/-- The static tool catalogue returned by `tools/list`. -/
def toolCatalogue : List ToolSpec :=
  [⟨"addToMCPMemory", "Store important user information in persistent memory",
    "thingToRemember", "Information to store in memory"⟩,
   ⟨"searchMCPMemory", "Search for relevant information in user's persistent memory",
    "informationToGet", "Query to search for in memory"⟩]

/-- `handleToolsList`: the static catalogue as a result envelope. -/
def handleToolsList (request : JValue) : JsonRpcResponse :=
  { result := some (.toolList toolCatalogue),
    id := jsOrNull (jsGetProp request "id") }

/-- `handleInitialize`: static protocol/server metadata as a result
envelope. -/
def handleInitialize (request : JValue) : JsonRpcResponse :=
  { result := some (.initResult ⟨"2025-03-26", "MCP Memory", "1.0.0"⟩),
    id := jsOrNull (jsGetProp request "id") }

/-- `processJsonRpcRequest`: dispatch on the method string; an unknown
method yields *Method not found*; any throw out of a handler is caught and
converted to an *Internal error* envelope carrying the failure detail. -/
def processJsonRpcRequest (backend : ToolBackend) (request : JValue) :
    JsonRpcResponse :=
  let attempt : Except String JsonRpcResponse :=
    match jsGetProp request "method" with
    | .str "tools/call" => handleToolCall backend request
    | .str "tools/list" => .ok (handleToolsList request)
    | .str "initialize" => .ok (handleInitialize request)
    | _ => .ok { error := some ⟨-32601, "Method not found", none⟩,
                 id := jsOrNull (jsGetProp request "id") }
  match attempt with
  | .ok response => response
  | .error e =>
    { error := some ⟨-32603, "Internal error", some e⟩,
      id := jsOrNull (jsGetProp request "id") }

/-- How the response body is rendered: one JSON document, or a single
Server-Sent-Events frame wrapping the same envelope. -/
inductive BodyRendering where
  | json : JsonRpcResponse → BodyRendering
  | sse : JsonRpcResponse → BodyRendering

/-- The HTTP response assembled by the transport, reduced to the fields
the specification talks about: status code, content type, the
`Mcp-Session-Id` header, and the rendered envelope. -/
structure HttpResponse where
  status : Nat
  contentType : String
  mcpSessionId : Option String
  rendering : BodyRendering

/-- `shouldUseSSE`: the stream-worthiness decision point, currently the
constant `false` (no method streams). -/
def shouldUseSSE (request : JValue) (response : JsonRpcResponse) : Bool :=
  false

/-- `createJsonResponse`: single JSON document at HTTP 202 with the
session header. -/
def createJsonResponse (result : JsonRpcResponse) (sessionId : String) :
    HttpResponse :=
  { status := 202, contentType := "application/json",
    mcpSessionId := some sessionId, rendering := .json result }

/-- `createSSEResponse`: one SSE frame at HTTP 200 with the session
header. -/
def createSSEResponse (result : JsonRpcResponse) (sessionId : String) :
    HttpResponse :=
  { status := 200, contentType := "text/event-stream",
    mcpSessionId := some sessionId, rendering := .sse result }

/-- `createErrorResponse`: a JSON error envelope at HTTP 400 with the
session header. -/
def createErrorResponse (error : JsonRpcError) (id : JValue)
    (sessionId : String) : HttpResponse :=
  { status := 400, contentType := "application/json",
    mcpSessionId := some sessionId,
    rendering := .json { error := some error, id := id } }

/-- `handlePost`.  The request body is `Except.error` when `request.json()`
throws (syntactically invalid JSON); the Accept header is `none` when
absent (`headers.get` returns `null`, defaulted to `""` by `|| ""`).

Returns the response together with the number of times the method
dispatcher (`processJsonRpcRequest`) was invoked, the spec's "handler
invocation counter".

The `body.id || null` read on the invalid-request path uses the throwing
property access: a `null` body makes it throw into the same catch that
handles parse failures, producing *Parse error*. -/
def handlePost (backend : ToolBackend) (body : Except Unit JValue)
    (acceptHeader : Option String) (sessionId : String) :
    HttpResponse × Nat :=
  let accept := acceptHeader.getD ""
  let supportsJson := jsIncludes accept "application/json"
  let supportsSSE := jsIncludes accept "text/event-stream"
  let attempt : Except Unit (HttpResponse × Nat) := do
    let v ← body
    if !isValidJsonRpc v then
      match jsGetPropE v "id" with
      | .error _ => throw ()
      | .ok idv =>
        return (createErrorResponse ⟨-32600, "Invalid Request", none⟩
                  (jsOrNull idv) sessionId, 0)
    else
      let result := processJsonRpcRequest backend v
      if supportsSSE && shouldUseSSE v result then
        return (createSSEResponse result sessionId, 1)
      else if supportsJson then
        return (createJsonResponse result sessionId, 1)
      else
        -- Default to JSON if no specific Accept header
        return (createJsonResponse result sessionId, 1)
  match attempt with
  | .ok r => r
  | .error _ =>
    (createErrorResponse ⟨-32700, "Parse error", none⟩ .null sessionId, 0)

/-- Outcome of the Session Store lookup round trip (`/get` on the durable
object): the fetch resolves OK, resolves not-OK (session unknown), or
throws (store unreachable). -/
inductive LookupOutcome where
  | ok : LookupOutcome
  | notOk : LookupOutcome
  | threw : LookupOutcome
deriving DecidableEq

/-- `getOrCreateSession`.  `lookupOutcome` models the `/get` round trip per
presented id, `registrationThrows` the `/create` round trip, `freshId` the
`uuidv4()` draw, and `sessionHeader` the `Mcp-Session-Id` request header
(`none` when absent; the `if (sessionHeader)` guard also skips an empty
string, which is falsy).  A registration throw is caught and ignored: the
function returns the fresh id regardless. -/
def getOrCreateSession (lookupOutcome : String → LookupOutcome)
    (registrationThrows : Bool) (sessionHeader : Option String)
    (freshId : String) : String :=
  let reused : Option String :=
    match sessionHeader with
    | some h =>
      if h == "" then none
      else
        match lookupOutcome h with
        | .ok => some h
        | .notOk => none
        | .threw => none
    | none => none
  match reused with
  | some h => h
  | none =>
    -- best-effort /create; a throw is caught and only logged
    let _ := registrationThrows
    freshId

/-- `SessionData` from the session manager durable object.  Timestamps are
`Date.now()` millisecond values, modelled as integers supplied explicitly
to each operation. -/
structure SessionData where
  id : String
  userId : String
  createdAt : Int
  lastActivity : Int
  metadata : List (String × JValue)

/-- The durable object's keyed storage, as an association list keyed by
session id. -/
abbrev SessionStorage := List (String × SessionData)

/-- `this.ctx.storage.get(sessionId)`. -/
def storageGet (st : SessionStorage) (sessionId : String) :
    Option SessionData :=
  (st.find? (fun p => p.1 == sessionId)).map (fun p => p.2)

/-- `this.ctx.storage.put(sessionId, value)`: replace an existing binding
in place, or append a new one. -/
def storagePut (st : SessionStorage) (sessionId : String)
    (value : SessionData) : SessionStorage :=
  if (st.find? (fun p => p.1 == sessionId)).isSome then
    st.map (fun p => if p.1 == sessionId then (sessionId, value) else p)
  else
    st ++ [(sessionId, value)]

/-- The effect of object spread on one existing entry: a key named by the
patch takes the patch's value, any other entry is unchanged. -/
def patchEntry (patch : List (String × JValue)) (p : String × JValue) :
    String × JValue :=
  match patch.find? (fun q => q.1 == p.1) with
  | some q => (p.1, q.2)
  | none => p

/-- JavaScript object spread `{...old, ...patch}` restricted to the
metadata mapping: keys of `patch` override, every other key of `old`
survives with its value, and new keys of `patch` are appended. -/
def mergeMetadata (old patch : List (String × JValue)) :
    List (String × JValue) :=
  old.map (patchEntry patch)
  ++ patch.filter (fun q => (old.find? (fun p => p.1 == q.1)).isNone)

/-- `createSession`: build the record with both timestamps at `now` and
store it; returns the new storage and the serialized session. -/
def createSession (st : SessionStorage) (now : Int) (sessionId userId : String)
    (metadata : List (String × JValue)) : SessionStorage × SessionData :=
  let sessionData : SessionData :=
    { id := sessionId, userId := userId, createdAt := now,
      lastActivity := now, metadata := metadata }
  (storagePut st sessionId sessionData, sessionData)

/-- `updateSession`: 404 (`Except.error`) when the id is unknown;
otherwise refresh `lastActivity`, shallow-merge the metadata patch when
one was supplied (`if (metadata)`; `none` models an absent/falsy patch),
store, and return the updated session. -/
def updateSession (st : SessionStorage) (now : Int) (sessionId : String)
    (metadata : Option (List (String × JValue))) :
    Except Unit (SessionStorage × SessionData) :=
  match storageGet st sessionId with
  | none => .error ()
  | some session =>
    let session := { session with lastActivity := now }
    let session :=
      match metadata with
      | some patch => { session with metadata := mergeMetadata session.metadata patch }
      | none => session
    .ok (storagePut st sessionId session, session)

/-- `getSession`: 404 when unknown; otherwise refresh `lastActivity`,
store the refreshed record, and return it. -/
def getSession (st : SessionStorage) (now : Int) (sessionId : String) :
    Except Unit (SessionStorage × SessionData) :=
  match storageGet st sessionId with
  | none => .error ()
  | some session =>
    let session := { session with lastActivity := now }
    .ok (storagePut st sessionId session, session)

/-- The 24-hour retention window, in milliseconds. -/
def maxAge : Int := 24 * 60 * 60 * 1000

/-- Is a session expired at time `now` (`now - session.lastActivity >
maxAge`)? -/
def isExpired (now : Int) (session : SessionData) : Bool :=
  now - session.lastActivity > maxAge

/-- `cleanupSessions`: delete every stored session whose last-activity age
exceeds the retention window; report the deleted and surviving counts.
The source iterates over `storage.list()` deleting as it goes, which on an
association list is exactly a filter plus two counts. -/
def cleanupSessions (st : SessionStorage) (now : Int) :
    SessionStorage × Nat × Nat :=
  (st.filter (fun p => ! isExpired now p.2),
   st.countP (fun p => isExpired now p.2),
   st.countP (fun p => ! isExpired now p.2))

/-! ## Concrete instances used by witnesses -/

/-- A backend whose operations all succeed. -/
def demoBackend : ToolBackend :=
  { storeMemory := fun _ => .ok "mem-1",
    storeMemoryInD1 := fun _ _ => .ok (),
    searchMemories := fun _ => .ok [] }

/-- A backend whose operations all throw. -/
def failingBackend : ToolBackend :=
  { storeMemory := fun _ => .error "D1_ERROR: no such table",
    storeMemoryInD1 := fun _ _ => .error "D1_ERROR: no such table",
    searchMemories := fun _ => .error "AI binding unavailable" }

/-- A well-formed `initialize` request. -/
def demoInitRequest : JValue :=
  .obj [("jsonrpc", .str "2.0"), ("method", .str "initialize"),
        ("params", .obj []), ("id", .str "1")]

/-- A well-formed `tools/call` request for `addToMCPMemory`. -/
def demoAddRequest : JValue :=
  .obj [("jsonrpc", .str "2.0"), ("method", .str "tools/call"),
        ("params", .obj [("name", .str "addToMCPMemory"),
                         ("arguments", .obj [("thingToRemember", .str "Test memory")])]),
        ("id", .str "3")]

/-! ## Helper lemmas -/

/-- Every response `handleToolCall` returns (rather than throws) populates
exactly one of `result`/`error`: known tools produce a result envelope,
the default branch produces the unknown-tool error envelope. -/
theorem handleToolCall_ok_exclusive (backend : ToolBackend) (request : JValue)
    (r : JsonRpcResponse) (h : handleToolCall backend request = .ok r) :
    (r.result.isSome = true ∧ r.error = none) ∨
    (r.result = none ∧ r.error.isSome = true) := by
  unfold handleToolCall at h
  simp only [throw, throwThe, MonadExceptOf.throw, bind, Except.bind, pure,
    Except.pure] at h
  split at h
  · cases h
  · split at h
    · cases hg : jsGetPropE (jsGetProp (jsGetProp request "params") "arguments")
        "thingToRemember" with
      | error e => rw [hg] at h; cases h
      | ok v => rw [hg] at h; cases h; left; exact ⟨rfl, rfl⟩
    · cases hg : jsGetPropE (jsGetProp (jsGetProp request "params") "arguments")
        "informationToGet" with
      | error e => rw [hg] at h; cases h
      | ok v => rw [hg] at h; cases h; left; exact ⟨rfl, rfl⟩
    · cases h; right; exact ⟨rfl, rfl⟩

/-! ## C1 -/

/-- C1: for every valid JSON-RPC envelope whose method is `initialize`,
`tools/list` or `tools/call`, the response envelope produced by
`processJsonRpcRequest` has exactly one of `result`/`error` populated —
never both, never neither — whatever the tool backend does. -/
theorem c1_process_exactly_one_of_result_error (backend : ToolBackend)
    (request : JValue) (hvalid : isValidJsonRpc request = true)
    (hmethod : jsGetProp request "method" = .str "initialize" ∨
               jsGetProp request "method" = .str "tools/list" ∨
               jsGetProp request "method" = .str "tools/call") :
    ((processJsonRpcRequest backend request).result.isSome = true ∧
      (processJsonRpcRequest backend request).error = none) ∨
    ((processJsonRpcRequest backend request).result = none ∧
      (processJsonRpcRequest backend request).error.isSome = true) := by
  unfold processJsonRpcRequest
  rcases hmethod with hm | hm | hm <;> rw [hm]
  · left; exact ⟨rfl, rfl⟩
  · left; exact ⟨rfl, rfl⟩
  · cases hc : handleToolCall backend request with
    | ok r =>
      simpa using handleToolCall_ok_exclusive backend request r hc
    | error e =>
      right; exact ⟨rfl, rfl⟩

/-- Witness for C1 at a concrete `initialize` request. -/
theorem c1_witness :
    isValidJsonRpc demoInitRequest = true ∧
    (((processJsonRpcRequest demoBackend demoInitRequest).result.isSome = true ∧
       (processJsonRpcRequest demoBackend demoInitRequest).error = none) ∨
     ((processJsonRpcRequest demoBackend demoInitRequest).result = none ∧
       (processJsonRpcRequest demoBackend demoInitRequest).error.isSome = true)) :=
  ⟨rfl, c1_process_exactly_one_of_result_error demoBackend demoInitRequest rfl
    (Or.inl rfl)⟩

/-- A value with a property bound to a string is an object, hence neither
`undefined` nor `null` (so the params destructuring cannot throw). -/
theorem jsGetProp_str_not_nullish (v : JValue) (k s : String)
    (h : jsGetProp v k = .str s) :
    isUndefined v = false ∧ isNull v = false := by
  cases v <;> simp_all [jsGetProp, isUndefined, isNull]

/-- `handleToolCall` on a request naming `addToMCPMemory` whose argument
read succeeds returns the tool's result envelope. -/
theorem handleToolCall_add (backend : ToolBackend) (request : JValue)
    (thing : JValue)
    (hname : jsGetProp (jsGetProp request "params") "name" =
      .str "addToMCPMemory")
    (harg : jsGetPropE (jsGetProp (jsGetProp request "params") "arguments")
      "thingToRemember" = .ok thing) :
    handleToolCall backend request =
      .ok { result := some (.tool (addToMCPMemory backend thing)),
            id := jsOrNull (jsGetProp request "id") } := by
  have hobj := jsGetProp_str_not_nullish _ _ _ hname
  unfold handleToolCall
  simp only [throw, throwThe, MonadExceptOf.throw, bind, Except.bind, pure,
    Except.pure, hobj.1, hobj.2, Bool.or_self, if_neg, Bool.false_eq_true,
    not_false_iff, hname, harg]

/-- `handleToolCall` on a request naming `searchMCPMemory` whose argument
read succeeds returns the tool's result envelope. -/
theorem handleToolCall_search (backend : ToolBackend) (request : JValue)
    (query : JValue)
    (hname : jsGetProp (jsGetProp request "params") "name" =
      .str "searchMCPMemory")
    (harg : jsGetPropE (jsGetProp (jsGetProp request "params") "arguments")
      "informationToGet" = .ok query) :
    handleToolCall backend request =
      .ok { result := some (.tool (searchMCPMemory backend query)),
            id := jsOrNull (jsGetProp request "id") } := by
  have hobj := jsGetProp_str_not_nullish _ _ _ hname
  unfold handleToolCall
  simp only [throw, throwThe, MonadExceptOf.throw, bind, Except.bind, pure,
    Except.pure, hobj.1, hobj.2, Bool.or_self, if_neg, Bool.false_eq_true,
    not_false_iff, hname, harg]

/-! ## C2 -/

/-- C2: a `tools/call` of a known tool whose backend operation fails is
answered with a success envelope (`error = none`) whose result is a Tool
Result with `isError = true` and a human-readable text block — never a
protocol-level error envelope. -/
theorem c2_tool_failure_reported_in_result (backend : ToolBackend)
    (request : JValue) (hvalid : isValidJsonRpc request = true)
    (hmethod : jsGetProp request "method" = .str "tools/call") :
    ((∀ thing,
        jsGetProp (jsGetProp request "params") "name" = .str "addToMCPMemory" →
        jsGetPropE (jsGetProp (jsGetProp request "params") "arguments")
          "thingToRemember" = .ok thing →
        ((∃ e, backend.storeMemory thing = .error e) ∨
         (∃ memoryId e, backend.storeMemory thing = .ok memoryId ∧
            backend.storeMemoryInD1 thing memoryId = .error e)) →
        ((processJsonRpcRequest backend request).error = none ∧
         ∃ tr, (processJsonRpcRequest backend request).result = some (.tool tr) ∧
           tr.isError = some true ∧ ∃ msg, tr.content = [⟨"text", msg⟩])) ∧
     (∀ query,
        jsGetProp (jsGetProp request "params") "name" = .str "searchMCPMemory" →
        jsGetPropE (jsGetProp (jsGetProp request "params") "arguments")
          "informationToGet" = .ok query →
        (∃ e, backend.searchMemories query = .error e) →
        ((processJsonRpcRequest backend request).error = none ∧
         ∃ tr, (processJsonRpcRequest backend request).result = some (.tool tr) ∧
           tr.isError = some true ∧ ∃ msg, tr.content = [⟨"text", msg⟩]))) := by
  constructor
  · intro thing hname harg hfail
    have hcall := handleToolCall_add backend request thing hname harg
    unfold processJsonRpcRequest
    rw [hmethod, hcall]
    refine ⟨rfl, addToMCPMemory backend thing, rfl, ?_⟩
    unfold addToMCPMemory
    rcases hfail with ⟨e, he⟩ | ⟨memoryId, e, hok, he⟩
    · rw [show (do
          let memoryId ← backend.storeMemory thing
          backend.storeMemoryInD1 thing memoryId : Except String Unit)
          = .error e by simp [bind, Except.bind, he]]
      exact ⟨rfl, _, rfl⟩
    · rw [show (do
          let memoryId ← backend.storeMemory thing
          backend.storeMemoryInD1 thing memoryId : Except String Unit)
          = .error e by simp [bind, Except.bind, hok, he]]
      exact ⟨rfl, _, rfl⟩
  · intro query hname harg hfail
    have hcall := handleToolCall_search backend request query hname harg
    unfold processJsonRpcRequest
    rw [hmethod, hcall]
    refine ⟨rfl, searchMCPMemory backend query, rfl, ?_⟩
    unfold searchMCPMemory
    rcases hfail with ⟨e, he⟩
    rw [he]
    exact ⟨rfl, _, rfl⟩

/-- Witness for C2: the failing backend on a concrete `addToMCPMemory`
call. -/
theorem c2_witness :
    isValidJsonRpc demoAddRequest = true ∧
    ((processJsonRpcRequest failingBackend demoAddRequest).error = none ∧
     ∃ tr, (processJsonRpcRequest failingBackend demoAddRequest).result =
        some (.tool tr) ∧
       tr.isError = some true ∧ ∃ msg, tr.content = [⟨"text", msg⟩]) :=
  ⟨rfl,
   (c2_tool_failure_reported_in_result failingBackend demoAddRequest rfl
      rfl).1 (.str "Test memory") rfl rfl
     (Or.inl ⟨"D1_ERROR: no such table", rfl⟩)⟩

/-! ## C3 -/

/-- C3: a POST body that parses as a JSON object but fails envelope
validation is answered with the *Invalid Request* error (code -32600) at
HTTP status 400, and the method dispatcher is never invoked (the
invocation counter stays at 0), for every backend and Accept header. -/
theorem c3_invalid_envelope_short_circuits (backend : ToolBackend)
    (fields : List (String × JValue)) (acceptHeader : Option String)
    (sessionId : String)
    (hinvalid : isValidJsonRpc (.obj fields) = false) :
    (handlePost backend (.ok (.obj fields)) acceptHeader sessionId).1.status
        = 400 ∧
    (handlePost backend (.ok (.obj fields)) acceptHeader sessionId).1.rendering
        = .json { error := some ⟨-32600, "Invalid Request", none⟩,
                  id := jsOrNull (jsGetProp (.obj fields) "id") } ∧
    (handlePost backend (.ok (.obj fields)) acceptHeader sessionId).2 = 0 := by
  unfold handlePost
  simp only [bind, Except.bind, pure, Except.pure, hinvalid, Bool.not_false,
    if_pos, jsGetPropE]
  exact ⟨rfl, rfl, trivial⟩

/-- Witness for C3: an object body with the wrong protocol tag. -/
theorem c3_witness :
    isValidJsonRpc (.obj [("jsonrpc", .str "1.0"), ("method", .str "ping")])
        = false ∧
    (handlePost demoBackend
        (.ok (.obj [("jsonrpc", .str "1.0"), ("method", .str "ping")]))
        none "sess-1").1.status = 400 ∧
    (handlePost demoBackend
        (.ok (.obj [("jsonrpc", .str "1.0"), ("method", .str "ping")]))
        none "sess-1").2 = 0 := by
  refine ⟨rfl, ?_⟩
  have h := c3_invalid_envelope_short_circuits demoBackend
    [("jsonrpc", .str "1.0"), ("method", .str "ping")] none "sess-1" rfl
  exact ⟨h.1, h.2.2⟩

/-! ## C4 -/

/-- C4: every POST whose body passes envelope validation is answered with
a single JSON document at HTTP 202 carrying the `Mcp-Session-Id` header,
for every possible Accept header (absent, unrecognized, or even
`text/event-stream`, since no method is stream-worthy). -/
theorem c4_valid_post_json_202 (backend : ToolBackend) (v : JValue)
    (acceptHeader : Option String) (sessionId : String)
    (hvalid : isValidJsonRpc v = true) :
    (handlePost backend (.ok v) acceptHeader sessionId).1
        = createJsonResponse (processJsonRpcRequest backend v) sessionId ∧
    (handlePost backend (.ok v) acceptHeader sessionId).1.status = 202 ∧
    (handlePost backend (.ok v) acceptHeader sessionId).1.contentType
        = "application/json" ∧
    (handlePost backend (.ok v) acceptHeader sessionId).1.mcpSessionId
        = some sessionId ∧
    (handlePost backend (.ok v) acceptHeader sessionId).1.rendering
        = .json (processJsonRpcRequest backend v) := by
  have h : (handlePost backend (.ok v) acceptHeader sessionId).1
      = createJsonResponse (processJsonRpcRequest backend v) sessionId := by
    unfold handlePost
    simp only [bind, Except.bind, pure, Except.pure, hvalid, Bool.not_true,
      Bool.false_eq_true, if_neg, not_false_iff, shouldUseSSE, Bool.and_false,
      ite_self]
  exact ⟨h, by rw [h]; rfl, by rw [h]; rfl, by rw [h]; rfl, by rw [h]; rfl⟩

/-- Witness for C4 at a concrete valid request with an SSE-only Accept
header. -/
theorem c4_witness :
    isValidJsonRpc demoInitRequest = true ∧
    (handlePost demoBackend (.ok demoInitRequest) (some "text/event-stream")
        "sess-2").1.status = 202 ∧
    (handlePost demoBackend (.ok demoInitRequest) (some "text/event-stream")
        "sess-2").1.mcpSessionId = some "sess-2" :=
  ⟨rfl,
   (c4_valid_post_json_202 demoBackend demoInitRequest
      (some "text/event-stream") "sess-2" rfl).2.1,
   (c4_valid_post_json_202 demoBackend demoInitRequest
      (some "text/event-stream") "sess-2" rfl).2.2.2.1⟩

/-! ## C5 -/

/-- C5: session resolution reuses the presented id exactly when the store
lookup succeeds; on any lookup failure (not found or store unreachable) it
proceeds with the freshly minted id, which is distinct from the presented
one whenever the mint is; and a registration throw never changes the
outcome (the request proceeds with the fresh id either way). -/
theorem c5_session_resolution (lookupOutcome : String → LookupOutcome)
    (presented freshId : String) (hne : presented ≠ "") :
    (∀ registrationThrows, lookupOutcome presented = .ok →
       getOrCreateSession lookupOutcome registrationThrows (some presented)
         freshId = presented) ∧
    (∀ registrationThrows, lookupOutcome presented ≠ .ok →
       getOrCreateSession lookupOutcome registrationThrows (some presented)
         freshId = freshId) ∧
    (∀ registrationThrows,
       getOrCreateSession lookupOutcome registrationThrows none freshId
         = freshId) ∧
    (freshId ≠ presented → ∀ registrationThrows,
       lookupOutcome presented ≠ .ok →
       getOrCreateSession lookupOutcome registrationThrows (some presented)
         freshId ≠ presented) ∧
    (∀ throws₁ throws₂ sessionHeader,
       getOrCreateSession lookupOutcome throws₁ sessionHeader freshId =
       getOrCreateSession lookupOutcome throws₂ sessionHeader freshId) := by
  have hbeq : (presented == "") = false := by
    simp [hne]
  refine ⟨?_, ?_, ?_, ?_, ?_⟩
  · intro _ hok
    simp [getOrCreateSession, hbeq, hok]
  · intro _ hfail
    cases hl : lookupOutcome presented
    · exact absurd hl hfail
    · simp [getOrCreateSession, hbeq, hl]
    · simp [getOrCreateSession, hbeq, hl]
  · intro _
    unfold getOrCreateSession
    rfl
  · intro hdistinct registrationThrows hfail
    cases hl : lookupOutcome presented
    · exact absurd hl hfail
    · simp only [getOrCreateSession, hbeq, hl, Bool.false_eq_true, if_neg,
        not_false_iff]
      exact hdistinct
    · simp only [getOrCreateSession, hbeq, hl, Bool.false_eq_true, if_neg,
        not_false_iff]
      exact hdistinct
  · intro _ _ sessionHeader
    unfold getOrCreateSession
    rfl

/-- Witness for C5: a store that recognizes `"known"` and nothing else. -/
theorem c5_witness :
    ("stale" : String) ≠ "" ∧
    getOrCreateSession
        (fun s => if s == "known" then .ok else .notOk) true
        (some "stale") "fresh-uuid" = "fresh-uuid" := by
  refine ⟨by decide, ?_⟩
  exact (c5_session_resolution (fun s => if s == "known" then .ok else .notOk)
    "stale" "fresh-uuid" (by decide)).2.1 true (by decide)

/-! ## C6 -/

/-- The envelope carried by either rendering mode. -/
def envelopeOf : BodyRendering → JsonRpcResponse
  | .json e => e
  | .sse e => e

/-- The id the transport actually echoes on an error path: `null` for an
unparseable body, `null` when reading `body.id` throws (a `null` body),
and otherwise `body.id || null` — so any falsy id (absent, `null`, `0`,
`""`) is rendered as `null`. -/
def echoedErrorId (body : Except Unit JValue) : JValue :=
  match body with
  | .error _ => .null
  | .ok v =>
    match jsGetPropE v "id" with
    | .error _ => .null
    | .ok i => jsOrNull i

/-- Every response `handleToolCall` returns carries `request.id || null`
as its id. -/
theorem handleToolCall_ok_id (backend : ToolBackend) (request : JValue)
    (r : JsonRpcResponse) (h : handleToolCall backend request = .ok r) :
    r.id = jsOrNull (jsGetProp request "id") := by
  unfold handleToolCall at h
  simp only [throw, throwThe, MonadExceptOf.throw, bind, Except.bind, pure,
    Except.pure] at h
  split at h
  · cases h
  · split at h
    · cases hg : jsGetPropE (jsGetProp (jsGetProp request "params") "arguments")
        "thingToRemember" with
      | error e => rw [hg] at h; cases h
      | ok v => rw [hg] at h; cases h; rfl
    · cases hg : jsGetPropE (jsGetProp (jsGetProp request "params") "arguments")
        "informationToGet" with
      | error e => rw [hg] at h; cases h
      | ok v => rw [hg] at h; cases h; rfl
    · cases h; rfl

/-- Every envelope produced by the dispatcher carries `request.id || null`
as its id. -/
theorem processJsonRpcRequest_id (backend : ToolBackend) (request : JValue) :
    (processJsonRpcRequest backend request).id
      = jsOrNull (jsGetProp request "id") := by
  unfold processJsonRpcRequest
  split
  · cases hc : handleToolCall backend request with
    | ok r =>
      simp only [hc]
      exact handleToolCall_ok_id _ _ _ hc
    | error e => simp only [hc]
  · rfl
  · rfl
  · rfl

/-- A valid envelope is truthy, so reading its id never throws. -/
theorem valid_jsGetPropE (v : JValue) (hv : isValidJsonRpc v = true)
    (k : String) : jsGetPropE v k = .ok (jsGetProp v k) := by
  have ht : truthy v = true := by
    unfold isValidJsonRpc at hv
    simp only [Bool.and_eq_true] at hv
    exact hv.1.1.1
  cases v <;> simp_all [truthy, jsGetPropE]

/-- Counterexample to C6 as stated: a request with id `0` gets `null`
echoed, not `0` — `request.id || null` treats the falsy number `0` as
absent.  The concrete request uses an unknown method, so the response is
the *Method not found* error envelope. -/
theorem c6_counterexample :
    (envelopeOf (handlePost demoBackend
        (.ok (.obj [("jsonrpc", .str "2.0"), ("method", .str "no/such"),
                    ("id", .num 0)]))
        (some "application/json") "sess-3").1.rendering).error
      = some ⟨-32601, "Method not found", none⟩ ∧
    (envelopeOf (handlePost demoBackend
        (.ok (.obj [("jsonrpc", .str "2.0"), ("method", .str "no/such"),
                    ("id", .num 0)]))
        (some "application/json") "sess-3").1.rendering).id = .null ∧
    JValue.null ≠ JValue.num 0 := by
  refine ⟨rfl, rfl, ?_⟩
  intro h
  cases h

/-- C6 (amended): every error envelope produced by the POST transport
carries the request's identifier echoed when that identifier is truthy
and `null` otherwise (falsy identifiers — `0`, `""`, `null`, absent — are
all rendered as `null`), and the HTTP response carrying it always includes
the `Mcp-Session-Id` header. -/
theorem c6_error_envelopes_echo_id_and_session (backend : ToolBackend)
    (body : Except Unit JValue) (acceptHeader : Option String)
    (sessionId : String) :
    (handlePost backend body acceptHeader sessionId).1.mcpSessionId
        = some sessionId ∧
    ((envelopeOf (handlePost backend body acceptHeader
        sessionId).1.rendering).error.isSome = true →
      (envelopeOf (handlePost backend body acceptHeader
        sessionId).1.rendering).id = echoedErrorId body) := by
  cases body with
  | error e =>
    exact ⟨rfl, fun _ => rfl⟩
  | ok v =>
    cases hvalid : isValidJsonRpc v with
    | true =>
      have h := (c4_valid_post_json_202 backend v acceptHeader sessionId
        hvalid).1
      rw [h]
      refine ⟨rfl, fun _ => ?_⟩
      show (processJsonRpcRequest backend v).id = echoedErrorId (.ok v)
      rw [processJsonRpcRequest_id]
      simp only [echoedErrorId]
      rw [valid_jsGetPropE v hvalid "id"]
    | false =>
      unfold handlePost
      simp only [bind, Except.bind, pure, Except.pure, hvalid,
        Bool.not_false, if_pos]
      cases hid : jsGetPropE v "id" with
      | error e' =>
        refine ⟨rfl, fun _ => ?_⟩
        simp only [echoedErrorId, hid]
        rfl
      | ok idv =>
        refine ⟨rfl, fun _ => ?_⟩
        simp only [echoedErrorId, hid]
        rfl

/-- Witness for C6 (amended) at a request with id `0`. -/
theorem c6_witness :
    (handlePost demoBackend
        (.ok (.obj [("jsonrpc", .str "2.0"), ("method", .str "tools/list"),
                    ("id", .num 0)])) none "sess-4").1.mcpSessionId
      = some "sess-4" ∧
    (envelopeOf (handlePost demoBackend
        (.ok (.obj [("jsonrpc", .str "2.0"), ("method", .str "no/such"),
                    ("id", .num 0)])) none "sess-4").1.rendering).id
      = .null :=
  ⟨(c6_error_envelopes_echo_id_and_session demoBackend
      (.ok (.obj [("jsonrpc", .str "2.0"), ("method", .str "tools/list"),
                  ("id", .num 0)])) none "sess-4").1,
   ((c6_error_envelopes_echo_id_and_session demoBackend
      (.ok (.obj [("jsonrpc", .str "2.0"), ("method", .str "no/such"),
                  ("id", .num 0)])) none "sess-4").2 rfl).trans rfl⟩

/-! ## C7 -/

/-- The only error envelopes `handleToolCall` returns (rather than throws)
are unknown-tool errors with code -32601. -/
theorem handleToolCall_ok_error_code (backend : ToolBackend) (request : JValue)
    (r : JsonRpcResponse) (h : handleToolCall backend request = .ok r) :
    r.error = none ∨
    ∃ nm, r.error = some ⟨-32601, "Unknown tool: " ++ nm, none⟩ := by
  unfold handleToolCall at h
  simp only [throw, throwThe, MonadExceptOf.throw, bind, Except.bind, pure,
    Except.pure] at h
  split at h
  · cases h
  · split at h
    · cases hg : jsGetPropE (jsGetProp (jsGetProp request "params") "arguments")
        "thingToRemember" with
      | error e => rw [hg] at h; cases h
      | ok v => rw [hg] at h; cases h; left; rfl
    · cases hg : jsGetPropE (jsGetProp (jsGetProp request "params") "arguments")
        "informationToGet" with
      | error e => rw [hg] at h; cases h
      | ok v => rw [hg] at h; cases h; left; rfl
    · cases h; right; exact ⟨_, rfl⟩

/-- Counterexample to C7 as stated: a valid `tools/call` request with no
`params` at all is answered with the *Internal error* envelope (-32603,
from the throwing destructuring caught by the dispatcher), not the
*Invalid Request* error (-32600) the claim requires. -/
theorem c7_counterexample :
    isValidJsonRpc (.obj [("jsonrpc", .str "2.0"),
        ("method", .str "tools/call"), ("id", .str "3")]) = true ∧
    (processJsonRpcRequest demoBackend
        (.obj [("jsonrpc", .str "2.0"), ("method", .str "tools/call"),
               ("id", .str "3")])).error
      = some ⟨-32603, "Internal error",
              some "TypeError: cannot destructure request.params"⟩ ∧
    (-32603 : Int) ≠ -32600 := by
  exact ⟨rfl, rfl, by decide⟩

/-- C7 (amended): a `tools/call` whose params do not match the expected
shape is *not* answered with Invalid Request: absent/null params raise the
throwing destructuring, caught as *Internal error* (-32603); params
lacking a tool name fall through to the unknown-tool error (-32601,
"Unknown tool: undefined"); and no error envelope produced for a
`tools/call` ever has code -32600. -/
theorem c7_bad_params_never_invalid_request (backend : ToolBackend)
    (request : JValue) (hvalid : isValidJsonRpc request = true)
    (hmethod : jsGetProp request "method" = .str "tools/call") :
    ((isUndefined (jsGetProp request "params") = true ∨
        isNull (jsGetProp request "params") = true) →
      (processJsonRpcRequest backend request).error
        = some ⟨-32603, "Internal error",
                some "TypeError: cannot destructure request.params"⟩) ∧
    ((isUndefined (jsGetProp request "params") = false ∧
        isNull (jsGetProp request "params") = false ∧
        jsGetProp (jsGetProp request "params") "name" = .undefined) →
      (processJsonRpcRequest backend request).error
        = some ⟨-32601, "Unknown tool: undefined", none⟩) ∧
    (∀ err, (processJsonRpcRequest backend request).error = some err →
      err.code ≠ -32600) := by
  refine ⟨?_, ?_, ?_⟩
  · intro hnull
    have hguard : (isUndefined (jsGetProp request "params")
        || isNull (jsGetProp request "params")) = true := by
      rcases hnull with h | h <;> simp [h]
    have hc : handleToolCall backend request
        = .error "TypeError: cannot destructure request.params" := by
      unfold handleToolCall
      simp only [throw, throwThe, MonadExceptOf.throw, bind, Except.bind,
        pure, Except.pure, hguard, if_pos]
    unfold processJsonRpcRequest
    rw [hmethod, hc]
    rfl
  · intro ⟨hu, hn, hname⟩
    have hc : handleToolCall backend request
        = .ok { error := some ⟨-32601, "Unknown tool: undefined", none⟩,
                id := jsOrNull (jsGetProp request "id") } := by
      unfold handleToolCall
      simp only [throw, throwThe, MonadExceptOf.throw, bind, Except.bind,
        pure, Except.pure, hu, hn, Bool.or_self, Bool.false_eq_true, if_neg,
        not_false_iff, hname, jsToString]
      rfl
    unfold processJsonRpcRequest
    rw [hmethod, hc]
    rfl
  · intro err herr
    unfold processJsonRpcRequest at herr
    rw [hmethod] at herr
    revert herr
    cases hc : handleToolCall backend request with
    | ok r =>
      intro herr
      simp only at herr
      rcases handleToolCall_ok_error_code backend request r hc with h0 | ⟨nm, h0⟩
      · rw [h0] at herr; cases herr
      · rw [h0] at herr; cases herr
        show (-32601 : Int) ≠ -32600
        decide
    | error e =>
      intro herr
      simp only at herr
      cases herr
      show (-32603 : Int) ≠ -32600
      decide

/-- Witness for C7 (amended): `tools/call` with `params = null`. -/
theorem c7_witness :
    isValidJsonRpc (.obj [("jsonrpc", .str "2.0"),
        ("method", .str "tools/call"), ("params", .null),
        ("id", .str "7")]) = true ∧
    (processJsonRpcRequest demoBackend
        (.obj [("jsonrpc", .str "2.0"), ("method", .str "tools/call"),
               ("params", .null), ("id", .str "7")])).error
      = some ⟨-32603, "Internal error",
              some "TypeError: cannot destructure request.params"⟩ :=
  ⟨rfl,
   (c7_bad_params_never_invalid_request demoBackend
      (.obj [("jsonrpc", .str "2.0"), ("method", .str "tools/call"),
             ("params", .null), ("id", .str "7")]) rfl rfl).1
     (Or.inr rfl)⟩

/-! ## C8 -/

/-- Reading back a key just written returns the written session. -/
theorem storageGet_storagePut_self (st : SessionStorage) (k : String)
    (v : SessionData) : storageGet (storagePut st k v) k = some v := by
  induction st with
  | nil => simp [storageGet, storagePut]
  | cons hd tl ih =>
    simp only [storageGet, storagePut] at ih ⊢
    by_cases h : hd.1 = k
    · simp [List.find?_cons_of_pos, h]
    · have hb : (hd.1 == k) = false := by simp [h]
      simp only [List.find?_cons_of_neg, hb, Bool.false_eq_true,
        not_false_iff, List.map_cons, if_neg, List.cons_append]
      split at ih <;> rename_i hcond <;> simp only [hcond] <;>
        simpa [List.find?_cons_of_neg, hb] using ih

/-- `find?` by key commutes with mapping a key-preserving function. -/
theorem find?_map_keyPreserving (l : List (String × JValue))
    (f : String × JValue → String × JValue) (hf : ∀ p, (f p).1 = p.1)
    (k : String) :
    (l.map f).find? (fun p => p.1 == k)
      = (l.find? (fun p => p.1 == k)).map f := by
  induction l with
  | nil => rfl
  | cons hd tl ih =>
    by_cases h : hd.1 = k
    · have h1 : ((f hd).1 == k) = true := by simp [hf, h]
      have h2 : (hd.1 == k) = true := by simp [h]
      simp [List.find?_cons_of_pos, h1, h2]
    · have h1 : ¬ ((f hd).1 == k) = true := by simp [hf, h]
      have h2 : ¬ (hd.1 == k) = true := by simp [h]
      rw [List.map_cons, List.find?_cons_of_neg (tl.map f) h1,
        List.find?_cons_of_neg tl h2]
      exact ih

/-- A shallow merge leaves every key the patch does not name bound exactly
as in the original mapping. -/
theorem mergeMetadata_find?_untouched (old patch : List (String × JValue))
    (k : String) (hpatch : patch.find? (fun q => q.1 == k) = none) :
    (mergeMetadata old patch).find? (fun p => p.1 == k)
      = old.find? (fun p => p.1 == k) := by
  unfold mergeMetadata
  rw [List.find?_append]
  have hf : ∀ p : String × JValue, (patchEntry patch p).1 = p.1 := by
    intro p
    unfold patchEntry
    cases hq : patch.find? (fun q => q.1 == p.1) <;> simp [hq]
  rw [find?_map_keyPreserving old (patchEntry patch) hf k]
  have hfilter : (patch.filter
      (fun q => (old.find? (fun p => p.1 == q.1)).isNone)).find?
        (fun p => p.1 == k) = none := by
    rw [List.find?_eq_none]
    intro x hx
    have hxp := List.mem_of_mem_filter hx
    rw [List.find?_eq_none] at hpatch
    exact hpatch x hxp
  rw [hfilter]
  cases hold : old.find? (fun p => p.1 == k) with
  | none => rfl
  | some q =>
    have hqk : q.1 = k := by
      have := List.find?_some hold
      simpa using this
    have hnone : patch.find? (fun p => p.1 == q.1) = none := by
      rw [hqk]; exact hpatch
    simp [patchEntry, hnone]

/-- C8: a successful `updateSession` or `getSession` leaves `id`,
`userId` and `createdAt` unchanged, shallow-merges the metadata patch (a
key the patch does not name keeps its binding; without a patch the mapping
is untouched), and sets `lastActivity` to the operation's time; and a
`getSession` following a `createSession` observes a last-activity strictly
greater than the recorded creation time whenever time moved forward. -/
theorem c8_session_frame (st : SessionStorage) (now : Int) (sid : String) :
    (∀ s, storageGet st sid = some s →
      (∀ patch st' s',
          updateSession st now sid (some patch) = .ok (st', s') →
          s'.id = s.id ∧ s'.userId = s.userId ∧ s'.createdAt = s.createdAt ∧
          s'.lastActivity = now ∧
          ∀ k, patch.find? (fun q => q.1 == k) = none →
            s'.metadata.find? (fun p => p.1 == k)
              = s.metadata.find? (fun p => p.1 == k)) ∧
      (∀ st' s',
          updateSession st now sid none = .ok (st', s') →
          s'.id = s.id ∧ s'.userId = s.userId ∧ s'.createdAt = s.createdAt ∧
          s'.lastActivity = now ∧ s'.metadata = s.metadata) ∧
      (∀ st' s',
          getSession st now sid = .ok (st', s') →
          s'.id = s.id ∧ s'.userId = s.userId ∧ s'.createdAt = s.createdAt ∧
          s'.lastActivity = now ∧ s'.metadata = s.metadata)) ∧
    (∀ createdAtTime userId metadata, createdAtTime < now →
      ∃ st2 s2,
        getSession (createSession st createdAtTime sid userId metadata).1
            now sid = .ok (st2, s2) ∧
        s2.id = sid ∧
        s2.lastActivity
          > (createSession st createdAtTime sid userId metadata).2.createdAt) := by
  constructor
  · intro s hget
    refine ⟨?_, ?_, ?_⟩
    · intro patch st' s' h
      simp only [updateSession, hget, Except.ok.injEq, Prod.mk.injEq] at h
      obtain ⟨-, hs'⟩ := h
      subst hs'
      exact ⟨rfl, rfl, rfl, rfl, fun k hk =>
        mergeMetadata_find?_untouched s.metadata patch k hk⟩
    · intro st' s' h
      simp only [updateSession, hget, Except.ok.injEq, Prod.mk.injEq] at h
      obtain ⟨-, hs'⟩ := h
      subst hs'
      exact ⟨rfl, rfl, rfl, rfl, rfl⟩
    · intro st' s' h
      simp only [getSession, hget, Except.ok.injEq, Prod.mk.injEq] at h
      obtain ⟨-, hs'⟩ := h
      subst hs'
      exact ⟨rfl, rfl, rfl, rfl, rfl⟩
  · intro createdAtTime userId metadata ht
    have hget : storageGet (createSession st createdAtTime sid userId
        metadata).1 sid = some (createSession st createdAtTime sid userId
        metadata).2 := storageGet_storagePut_self st sid _
    refine ⟨storagePut (createSession st createdAtTime sid userId
        metadata).1 sid
        { id := sid, userId := userId, createdAt := createdAtTime,
          lastActivity := now, metadata := metadata },
      { id := sid, userId := userId, createdAt := createdAtTime,
        lastActivity := now, metadata := metadata }, ?_, rfl, ?_⟩
    · simp only [getSession, hget]
      rfl
    · exact ht

/-- Witness for C8 at a one-session store with a one-key patch. -/
theorem c8_witness :
    (updateSession [("s1", ⟨"s1", "alice", 10, 10, [("a", .num 1), ("b", .num 2)]⟩)]
        25 "s1" (some [("b", .num 9)])
      = .ok ([("s1", ⟨"s1", "alice", 10, 25, [("a", .num 1), ("b", .num 9)]⟩)],
             ⟨"s1", "alice", 10, 25, [("a", .num 1), ("b", .num 9)]⟩)) ∧
    ([("a", JValue.num 1), ("b", JValue.num 9)].find? (fun p => p.1 == "a")
      = [("a", JValue.num 1), ("b", JValue.num 2)].find? (fun p => p.1 == "a")) ∧
    (∃ st2 s2,
        getSession (createSession [] 10 "s2" "bob" []).1 25 "s2"
          = .ok (st2, s2) ∧
        s2.id = "s2" ∧
        s2.lastActivity > (createSession [] 10 "s2" "bob" []).2.createdAt) := by
  refine ⟨by rfl, ?_, ?_⟩
  · exact (((c8_session_frame
      [("s1", ⟨"s1", "alice", 10, 10, [("a", .num 1), ("b", .num 2)]⟩)] 25
      "s1").1 ⟨"s1", "alice", 10, 10, [("a", .num 1), ("b", .num 2)]⟩
      rfl).1 [("b", .num 9)] _ _ rfl).2.2.2.2 "a" rfl
  · exact (c8_session_frame [] 25 "s2").2 10 "bob" [] (by decide)

/-! ## C9 -/

/-- Filtering twice with the same predicate filters once. -/
theorem filter_idem {α : Type} (l : List α) (p : α → Bool) :
    (l.filter p).filter p = l.filter p := by
  rw [List.filter_filter]
  simp

/-- C9: one sweep at time `now` removes exactly the sessions whose
last-activity age exceeds 24 hours (an entry survives iff it is in the
store and not expired, and the reported cleaned count counts the expired
entries); a second sweep at the same instant, with no intervening
activity, is a no-op: it changes nothing, removes zero sessions, and
reports the same remaining-session count. -/
theorem c9_cleanup_sweep_idempotent (st : SessionStorage) (now : Int) :
    (cleanupSessions st now).2.1
        = st.countP (fun p => isExpired now p.2) ∧
    (∀ entry, entry ∈ (cleanupSessions st now).1 ↔
        entry ∈ st ∧ isExpired now entry.2 = false) ∧
    (cleanupSessions (cleanupSessions st now).1 now).1
        = (cleanupSessions st now).1 ∧
    (cleanupSessions (cleanupSessions st now).1 now).2.1 = 0 ∧
    (cleanupSessions (cleanupSessions st now).1 now).2.2
        = (cleanupSessions st now).2.2 := by
  refine ⟨rfl, ?_, ?_, ?_, ?_⟩
  · intro entry
    simp [cleanupSessions, List.mem_filter]
  · exact filter_idem st (fun p => ! isExpired now p.2)
  · rw [show (cleanupSessions (cleanupSessions st now).1 now).2.1
        = (cleanupSessions st now).1.countP (fun p => isExpired now p.2)
        from rfl]
    rw [List.countP_eq_zero]
    intro a ha
    have := (List.mem_filter.mp ha).2
    simp_all
  · show ((cleanupSessions st now).1.countP fun p => ! isExpired now p.2)
        = st.countP (fun p => ! isExpired now p.2)
    show ((st.filter fun p => ! isExpired now p.2).countP
        fun p => ! isExpired now p.2) = _
    rw [List.countP_eq_length_filter, List.countP_eq_length_filter,
      filter_idem]

/-! ## C10 -/

/-- A body that is not an object never validates: its `jsonrpc` property
reads as `undefined`. -/
theorem isValidJsonRpc_nonobj (v : JValue) (h : isObj v = false) :
    isValidJsonRpc v = false := by
  cases v <;> simp_all [isValidJsonRpc, jsGetProp, isObj]

/-- Counterexample to C10 as stated: the non-object JSON body `false` is
answered with *Invalid Request* (-32600), not *Parse error* (-32700) —
property access on a boolean does not throw in JavaScript, so validation
fails normally and its error path runs. -/
theorem c10_counterexample :
    isObj (.bool false) = false ∧
    (handlePost demoBackend (.ok (.bool false)) none "sess-5").1.rendering
      = .json { error := some ⟨-32600, "Invalid Request", none⟩,
                id := .null } ∧
    (handlePost demoBackend (.ok (.bool false)) none "sess-5").1.status
      = 400 ∧
    (-32600 : Int) ≠ -32700 :=
  ⟨rfl, rfl, rfl, by decide⟩

/-- C10 (amended): a POST whose body is valid JSON but not an object is
answered at HTTP 400 with id `null`; the *Parse error* envelope (-32700)
appears exactly when the body is JSON `null` — reading `body.id` on
`null` throws inside the try block that handles parse failures — while
every other non-object body (`false`, `0`, strings, arrays) fails
envelope validation without throwing and gets the *Invalid Request*
envelope (-32600) instead.  (`undefined` is excluded: JSON parsing never
produces it.) -/
theorem c10_nonobject_body_errors (backend : ToolBackend)
    (acceptHeader : Option String) (sessionId : String) :
    ((handlePost backend (.ok .null) acceptHeader sessionId).1.rendering
        = .json { error := some ⟨-32700, "Parse error", none⟩, id := .null } ∧
     (handlePost backend (.ok .null) acceptHeader sessionId).1.status
        = 400) ∧
    (∀ v, isObj v = false → v ≠ .null → v ≠ .undefined →
      (handlePost backend (.ok v) acceptHeader sessionId).1.rendering
        = .json { error := some ⟨-32600, "Invalid Request", none⟩,
                  id := .null } ∧
      (handlePost backend (.ok v) acceptHeader sessionId).1.status = 400) := by
  constructor
  · exact ⟨rfl, rfl⟩
  · intro v hobj hnull hundef
    have hinvalid : isValidJsonRpc v = false := isValidJsonRpc_nonobj v hobj
    have hid : jsGetPropE v "id" = .ok (jsGetProp v "id") := by
      cases v <;> first
        | rfl
        | exact absurd rfl hnull
        | exact absurd rfl hundef
    have hidnull : jsOrNull (jsGetProp v "id") = .null := by
      cases v with
      | obj fields => simp [isObj] at hobj
      | _ => rfl
    unfold handlePost
    simp only [bind, Except.bind, pure, Except.pure, hinvalid,
      Bool.not_false, if_pos, hid, hidnull]
    exact ⟨rfl, rfl⟩

/-- Witness for C10 (amended) at the non-object body `0`. -/
theorem c10_witness :
    isObj (.num 0) = false ∧
    (handlePost demoBackend (.ok (.num 0)) none "sess-6").1.status = 400 ∧
    (handlePost demoBackend (.ok (.num 0)) none "sess-6").1.rendering
      = .json { error := some ⟨-32600, "Invalid Request", none⟩,
                id := .null } :=
  ⟨rfl,
   ((c10_nonobject_body_errors demoBackend none "sess-6").2 (.num 0) rfl
      (fun h => by cases h) (fun h => by cases h)).2,
   ((c10_nonobject_body_errors demoBackend none "sess-6").2 (.num 0) rfl
      (fun h => by cases h) (fun h => by cases h)).1⟩

end MCPMemory
